import Mathlib

/-!
Verification development for the sl3 interpreter (parser + tree-walking
evaluator). The Go sources embedded here are:

* `src/parser/parser.go` - precedence-climbing parser core
  (`ParseProgram`, `parseStatement`, `parseExpression`, the `precedences`
  table and the handler registrations of `InitParsingFns`);
* `src/unnamed/part_000` - the evaluator helpers (`evalPrefix`,
  `evalInfix`, `evalBangOperator`, `evalMinusPrefix`,
  `evalBooleanExpression`, `evalArithmeticOperations`, `evalIfExpression`,
  `evalFunctionCall`, `selectBoolObject`);
* `src/unnamed/part_001` - the evaluator driver (`Evaluator`,
  `NewFromInput`, `NewFromProgram`, `eval`, `evalBlockStatement`,
  `evalStatements`, `evalExpressions`, `isError`, the `true_obj` /
  `false_obj` singletons).

The `ast`, `objects`, `tokens` and `lexer` packages are not part of the
given sources; the definitions standing in for them are marked
`Modelled from the spec:` and follow the natural-language specification.

Modelling conventions:

* Go interface values that may be `nil` are `Option`; a Go evaluation
  result is `Option Obj` with `none` standing for Go `nil`.
* Go runtime panics (nil-method calls, failed type assertions, integer
  division by zero) are the explicit `Outcome.panic`.
* Recursion is fuel-indexed (`Nat` fuel, `Outcome.timeout` on
  exhaustion); the Go code has no such bound, so theorems are stated
  relative to a fuel that suffices for the construct at hand.
* Pointer identity of the two package-level Boolean singletons matters
  observably in the source (`value == true_obj` comparisons), so the
  Boolean object carries a `canonical` flag: `true` exactly for the two
  package-level singletons, `false` for a fresh `&objects.Boolean{...}`
  allocation. The source only ever pointer-compares against the
  singletons, so this flag captures every pointer comparison the code
  performs.
* Go `int64` is modelled as `Int`; no claim exercises wrap-around, and
  division uses `Int.tdiv`, which agrees with Go truncated division on
  every non-overflowing case.
* The mutable `Storage` chain is a heap: a `Store` is a list of frames
  addressed by index, and an environment reference is an index into it.
  `NewEnclosedStorage` appends a fresh frame whose `parent` is the index
  it was given.
-/

set_option linter.unusedVariables false
set_option maxHeartbeats 1000000

namespace Interp

/- Abstract syntax, from the spec data model (section 3) as used by the
evaluator sources. A block is represented by its statement list. The
`ForLoop` variant is omitted: its parsing and evaluation code
(`evalForLoop`, `parseForLoop`) is not part of the given sources and no
claim mentions it. -/
mutual

inductive Expr : Type where
  | identifier (value : String)
  | integerLiteral (value : Int)
  | stringLiteral (value : String)
  | booleanLit (value : Bool)
  | prefixExpr (operator : String) (right : Expr)
  | infixExpr (left : Expr) (operator : String) (right : Expr)
  | ifExpr (condition : Expr) (consequence : List Stmt) (alternative : Option (List Stmt))
  | functionCall (identifier : Expr) (arguments : List Expr)
  | anonymousFunction (parameters : List String) (body : List Stmt)
  deriving Repr

inductive Stmt : Type where
  | expressionStatement (expression : Expr)
  | varStatement (identifier : String) (value : Expr)
  | returnStatement (returnValue : Expr)
  | functionStatement (identifier : String) (parameters : List String) (body : List Stmt)
  | blockStatement (statements : List Stmt)
  deriving Repr

end

/-- Modelled from the spec: the canonical textual rendering of an AST
node (`ToString` of the missing `ast` package), used by the source only
inside the `"Function ... not found"` message of `evalFunctionCall`.
The exact text is immaterial to every claim. -/
def Expr.rendering : Expr → String
  | .identifier v => " " ++ v
  | _ => " expression"

/-- Runtime value kinds, mirroring the `Type()` tags of the missing
`objects` package (INTEGER_OBJ, BOOL_OBJ, ...). -/
inductive ObjType : Type where
  | INTEGER_OBJ
  | BOOL_OBJ
  | STRING_OBJ
  | FUNCTION_OBJ
  | RETURN_OBJ
  | ERROR_OBJ
  deriving DecidableEq, Repr

/-- Runtime values. `boolean b canonical` models `*objects.Boolean`:
`canonical = true` for the two package-level singletons `true_obj` /
`false_obj` (part_001 lines 10-13), `canonical = false` for a fresh
`&objects.Boolean{Value: ...}` allocation as in `evalBooleanExpression`.
`functionObj` carries exactly what the source stores in
`objects.FunctionObject`: the parameter names and the body - the
constructor in `eval` (part_001 lines 95-110) sets no environment field.
`returnObj` wraps a possibly-nil value. -/
inductive Obj : Type where
  | integer (value : Int)
  | boolean (value : Bool) (canonical : Bool)
  | strObj (value : String)
  | functionObj (parameters : List String) (body : List Stmt)
  | returnObj (value : Option Obj)
  | errorObj (message : String)
  deriving Repr

/-- Tag of a runtime value, as returned by the Go `Type()` method. -/
def Obj.type : Obj → ObjType
  | .integer _ => .INTEGER_OBJ
  | .boolean _ _ => .BOOL_OBJ
  | .strObj _ => .STRING_OBJ
  | .functionObj _ _ => .FUNCTION_OBJ
  | .returnObj _ => .RETURN_OBJ
  | .errorObj _ => .ERROR_OBJ

/-- Modelled from the spec: the `Inspect()` rendering of the missing
`objects` package, used only inside error-message text; exact contents
are immaterial to every claim. -/
def Obj.inspect : Obj → String
  | .integer v => toString v
  | .boolean b _ => if b then "true" else "false"
  | .strObj s => s
  | .functionObj _ _ => "function"
  | .returnObj _ => "return value"
  | .errorObj m => m

/-- Direct transcription of `isError` (part_001 lines 201-208): a nil
object is not an error. -/
def isError : Option Obj → Bool
  | some (.errorObj _) => true
  | _ => false

/-- Pointer comparison `value == true_obj` from the source: an object is
the canonical true singleton exactly when it is a Boolean carrying
`true` that is one of the two package-level allocations. -/
def isTrueObj : Obj → Bool
  | .boolean true true => true
  | _ => false

/-- Direct transcription of `selectBoolObject` (part_000 lines 173-179):
returns one of the two canonical singletons. -/
def selectBoolObject (b : Bool) : Obj :=
  .boolean b true

/-- Modelled from the spec: one mutable environment of the missing
`objects.Storage` - a name-to-value mapping plus an optional parent
reference. Values may be Go nil. -/
structure Frame : Type where
  bindings : List (String × Option Obj)
  parent : Option Nat
  deriving Repr

/-- Heap of environments; an environment reference is an index. -/
abbrev Store : Type := List Frame

/-- Lookup in the binding list of a single frame; the most recent
binding of a name shadows older ones, which models overwriting a map
key. -/
def lookupBindings : List (String × Option Obj) → String → Option (Option Obj)
  | [], _ => none
  | (k, v) :: rest, name => if k = name then some v else lookupBindings rest name

/-- Modelled from the spec: `Storage.Get` walks outward through the
parent chain. Every frame the evaluator creates has a parent of smaller
index, so `env + 1` steps always suffice; the Go code would loop forever
on a cyclic chain, which the evaluator never builds. -/
def storageGetAux : Nat → Store → Nat → String → Option (Option Obj)
  | 0, _, _, _ => none
  | fuel+1, st, env, name =>
    match st.get? env with
    | none => none
    | some fr =>
      match lookupBindings fr.bindings name with
      | some v => some v
      | none =>
        match fr.parent with
        | none => none
        | some p => storageGetAux fuel st p name

/-- Modelled from the spec: `Storage.Get`. Returns `none` when the name
is unresolved at every level. -/
def storageGet (st : Store) (env : Nat) (name : String) : Option (Option Obj) :=
  storageGetAux (env + 1) st env name

/-- Modelled from the spec: `Storage.Set` always writes to the innermost
scope, shadowing outer bindings without mutating them. -/
def storageSet (st : Store) (env : Nat) (name : String) (v : Option Obj) : Store :=
  match st.get? env with
  | some fr => st.set env ⟨(name, v) :: fr.bindings, fr.parent⟩
  | none => st

/-- Outcome of one Go evaluation step: a returned value (possibly nil),
a host-level abort (runtime panic), or exhaustion of the fuel that the
embedding adds. -/
inductive Outcome : Type where
  | panic
  | timeout
  | val (v : Option Obj)
  deriving Repr

/-- Result of an evaluation step together with the mutated store. -/
abbrev Res : Type := Outcome × Store

/-- Result of `evalExpressions`: the argument values, or a propagated
abort. -/
inductive ListRes : Type where
  | panic
  | timeout
  | vals (vs : List (Option Obj))
  deriving Repr

mutual

/-- Transcription of the expression cases of `eval` (part_001 lines
71-149): identifier resolution, literals (Boolean literals yield the
canonical singletons), and dispatch to the helper functions of
part_000. -/
def evalExpr : Nat → Expr → Nat → Store → Res
  | 0, _, _, st => (.timeout, st)
  | n+1, e, env, st =>
    match e with
    | .identifier name =>
      match storageGet st env name with
      | none => (.val (some (.errorObj ("Cannot resolve identifier: " ++ name))), st)
      | some v => (.val v, st)
    | .integerLiteral v => (.val (some (.integer v)), st)
    | .stringLiteral s => (.val (some (.strObj s)), st)
    | .booleanLit b => (.val (some (selectBoolObject b)), st)
    | .prefixExpr op r => evalPrefixDispatch n op r env st
    | .infixExpr l op r => evalInfixDispatch n l op r env st
    | .ifExpr c cons alt => evalIfExpression n c cons alt env st
    | .functionCall f args => evalFunctionCall n f args env st
    | .anonymousFunction ps body => (.val (some (.functionObj ps body)), st)

/-- Transcription of the statement cases of `eval` (part_001 lines
71-149). `varStatement` checks `isError` before binding;
`returnStatement` wraps the operand result unconditionally, with no
error check; `functionStatement` builds a `FunctionObject` that captures
no environment and binds it in the current environment. -/
def evalStmt : Nat → Stmt → Nat → Store → Res
  | 0, _, _, st => (.timeout, st)
  | n+1, s, env, st =>
    match s with
    | .expressionStatement e => evalExpr n e env st
    | .varStatement name value =>
      match evalExpr n value env st with
      | (.val v, st1) =>
        if isError v then (.val v, st1)
        else (.val v, storageSet st1 env name v)
      | other => other
    | .returnStatement rv =>
      match evalExpr n rv env st with
      | (.val v, st1) => (.val (some (.returnObj v)), st1)
      | other => other
    | .functionStatement name ps body =>
      (.val (some (.functionObj ps body)), storageSet st env name (some (.functionObj ps body)))
    | .blockStatement ss => evalBlockStatement n ss env st

/-- Transcription of `evalBlockStatement` (part_001 lines 151-166): the
statements run in order; a non-nil result whose type is RETURN_OBJ or
ERROR_OBJ is returned immediately and unmodified; otherwise the value of
the last statement (nil for an empty block) is the result. -/
def evalBlockStatement : Nat → List Stmt → Nat → Store → Res
  | 0, _, _, st => (.timeout, st)
  | _+1, [], _, st => (.val none, st)
  | n+1, s :: rest, env, st =>
    match evalStmt n s env st with
    | (.val v, st1) =>
      match v with
      | some (.returnObj rv) => (.val (some (.returnObj rv)), st1)
      | some (.errorObj m) => (.val (some (.errorObj m)), st1)
      | _ =>
        match rest with
        | [] => (.val v, st1)
        | _ => evalBlockStatement n rest env st1
    | other => other

/-- Transcription of `evalStatements` (part_001 lines 168-184), the
Program-level sequencing: a ReturnObject is unwrapped into its carried
value, an ErrorObject short-circuits, otherwise the last value stands. -/
def evalStatements : Nat → List Stmt → Nat → Store → Res
  | 0, _, _, st => (.timeout, st)
  | _+1, [], _, st => (.val none, st)
  | n+1, s :: rest, env, st =>
    match evalStmt n s env st with
    | (.val (some (.returnObj v)), st1) => (.val v, st1)
    | (.val (some (.errorObj m)), st1) => (.val (some (.errorObj m)), st1)
    | (.val v, st1) =>
      match rest with
      | [] => (.val v, st1)
      | _ => evalStatements n rest env st1
    | other => other

/-- Transcription of `evalExpressions` (part_001 lines 186-199):
arguments are evaluated left to right; the first error becomes a
singleton result list. -/
def evalExpressions : Nat → List Expr → Nat → Store → ListRes × Store
  | 0, _, _, st => (.timeout, st)
  | _+1, [], _, st => (.vals [], st)
  | n+1, e :: rest, env, st =>
    match evalExpr n e env st with
    | (.val v, st1) =>
      if isError v then (.vals [v], st1)
      else
        match evalExpressions n rest env st1 with
        | (.vals vs, st2) => (.vals (v :: vs), st2)
        | other => other
    | (.panic, st1) => (.panic, st1)
    | (.timeout, st1) => (.timeout, st1)

/-- Transcription of `evalPrefix` (part_000 lines 8-17). -/
def evalPrefixDispatch : Nat → String → Expr → Nat → Store → Res
  | 0, _, _, _, st => (.timeout, st)
  | n+1, op, r, env, st =>
    if op = "!" then evalBangOperator n r env st
    else if op = "-" then evalMinusPrefixOperator n r env st
    else (.val (some (.errorObj ("Prefix operation not supported: " ++ op))), st)

/-- Transcription of `evalBangOperator` (part_000 lines 32-47): a nil
operand panics on the `Type()` call; a non-Boolean is an error; the
result is chosen by pointer comparison with `true_obj`, so a
non-canonical Boolean carrying `true` is sent to the `true_obj` branch
of the result. -/
def evalBangOperator : Nat → Expr → Nat → Store → Res
  | 0, _, _, st => (.timeout, st)
  | n+1, r, env, st =>
    match evalExpr n r env st with
    | (.val none, st1) => (.panic, st1)
    | (.val (some v), st1) =>
      if v.type ≠ .BOOL_OBJ then
        (.val (some (.errorObj ("Expected boolean expression for \x27!\x27 operator. \n\tGot: " ++ v.inspect))), st1)
      else if isTrueObj v then (.val (some (.boolean false true)), st1)
      else (.val (some (.boolean true true)), st1)
    | other => other

/-- Transcription of `evalMinusPrefix` (part_000 lines 49-61). -/
def evalMinusPrefixOperator : Nat → Expr → Nat → Store → Res
  | 0, _, _, st => (.timeout, st)
  | n+1, r, env, st =>
    match evalExpr n r env st with
    | (.val none, st1) => (.panic, st1)
    | (.val (some (.integer a)), st1) => (.val (some (.integer (-a))), st1)
    | (.val (some v), st1) =>
      (.val (some (.errorObj ("Expected integer expression for \x27-\x27 operator. \n\tGot: " ++ v.inspect))), st1)
    | other => other

/-- Transcription of `evalInfix` (part_000 lines 19-30): the left
operand is evaluated first and its runtime kind selects the path; any
other left kind - including an Error - falls through to a fresh
"Not supported infix operation" error, and the right operand is not
evaluated. A nil left operand panics on the `Type()` call. -/
def evalInfixDispatch : Nat → Expr → String → Expr → Nat → Store → Res
  | 0, _, _, _, _, st => (.timeout, st)
  | n+1, l, op, r, env, st =>
    match evalExpr n l env st with
    | (.val none, st1) => (.panic, st1)
    | (.val (some v), st1) =>
      match v.type with
      | .INTEGER_OBJ => evalArithmeticOperations n l op r env st1
      | .BOOL_OBJ => evalBooleanExpression n l op r env st1
      | _ => (.val (some (.errorObj ("Not supported infix operation: " ++ op))), st1)
    | other => other

/-- Transcription of `evalArithmeticOperations` (part_000 lines 88-124):
the left operand is evaluated a second time and asserted to be an
Integer (a failed assertion is a Go panic); a nil right operand panics
on `Type()`; a non-Integer right operand is an error; `/` is Go integer
division, which panics when the divisor is zero; comparisons go through
`selectBoolObject` and hence yield the canonical singletons, while `+ -
* /` allocate fresh Integer objects. -/
def evalArithmeticOperations : Nat → Expr → String → Expr → Nat → Store → Res
  | 0, _, _, _, _, st => (.timeout, st)
  | n+1, l, op, r, env, st =>
    match evalExpr n l env st with
    | (.val (some (.integer a)), st1) =>
      match evalExpr n r env st1 with
      | (.val none, st2) => (.panic, st2)
      | (.val (some (.integer b)), st2) =>
        if op = "+" then (.val (some (.integer (a + b))), st2)
        else if op = "-" then (.val (some (.integer (a - b))), st2)
        else if op = "*" then (.val (some (.integer (a * b))), st2)
        else if op = "/" then
          if b = 0 then (.panic, st2) else (.val (some (.integer (Int.tdiv a b))), st2)
        else if op = ">" then (.val (some (selectBoolObject (decide (b < a)))), st2)
        else if op = "<" then (.val (some (selectBoolObject (decide (a < b)))), st2)
        else if op = "==" then (.val (some (selectBoolObject (decide (a = b)))), st2)
        else if op = "!=" then (.val (some (selectBoolObject (!(decide (a = b))))), st2)
        else (.val (some (.errorObj ("Not supported operator: " ++ op))), st2)
      | (.val (some w), st2) =>
        (.val (some (.errorObj ("Expected right value of \x27" ++ op ++ "\x27 to be an integer. \n\tGot: " ++ w.inspect))), st2)
      | other => other
    | (.val _, st1) => (.panic, st1)
    | other => other

/-- Transcription of `evalBooleanExpression` (part_000 lines 63-86): the
left operand is evaluated a second time and asserted to be a Boolean;
`==` and `!=` compare the carried values but build the result with a
fresh `&objects.Boolean{...}` allocation, not through the canonical
singletons. -/
def evalBooleanExpression : Nat → Expr → String → Expr → Nat → Store → Res
  | 0, _, _, _, _, st => (.timeout, st)
  | n+1, l, op, r, env, st =>
    match evalExpr n l env st with
    | (.val (some (.boolean a _)), st1) =>
      match evalExpr n r env st1 with
      | (.val none, st2) => (.panic, st2)
      | (.val (some (.boolean b _)), st2) =>
        if op = "==" then (.val (some (.boolean (a == b) false)), st2)
        else if op = "!=" then (.val (some (.boolean (a != b) false)), st2)
        else (.val (some (.errorObj ("Not supported operator: " ++ op))), st2)
      | (.val (some w), st2) =>
        (.val (some (.errorObj ("Expected right value to be a boolean.\n\tGot: " ++ w.inspect))), st2)
      | other => other
    | (.val _, st1) => (.panic, st1)
    | other => other

/-- Transcription of `evalIfExpression` (part_000 lines 126-145): a nil
condition panics on `Type()`; a non-Boolean condition is an error; the
consequence runs only when the condition is pointer-equal to `true_obj`;
otherwise the alternative runs when present, and the result is Go nil
when it is absent. The branch blocks run in the same environment, not a
child. -/
def evalIfExpression : Nat → Expr → List Stmt → Option (List Stmt) → Nat → Store → Res
  | 0, _, _, _, _, st => (.timeout, st)
  | n+1, c, cons, alt, env, st =>
    match evalExpr n c env st with
    | (.val none, st1) => (.panic, st1)
    | (.val (some v), st1) =>
      if v.type ≠ .BOOL_OBJ then
        (.val (some (.errorObj ("Expected boolean expression for \x27if\x27 condition.\n\t" ++ v.inspect))), st1)
      else if isTrueObj v then evalBlockStatement n cons env st1
      else
        match alt with
        | some a => evalBlockStatement n a env st1
        | none => (.val none, st1)
    | other => other

/-- Transcription of `evalFunctionCall` (part_000 lines 147-171): the
callee expression is evaluated and asserted (with the ok flag) to be a
FunctionObject, anything else - including an Error value - becoming a
"Function ... not found" error; arity is checked; the arguments are
evaluated in the callers environment; then a new child environment is
created with `objects.NewEnclosedStorage(env)` - its parent is the
environment of the CALLER, not any declaration-time environment - the
parameters are bound in it positionally, and the body block is evaluated
there. The result of the body block is returned as is: a ReturnObject
produced inside is not unwrapped here. -/
def evalFunctionCall : Nat → Expr → List Expr → Nat → Store → Res
  | 0, _, _, _, st => (.timeout, st)
  | n+1, ident, args, env, st =>
    match evalExpr n ident env st with
    | (.val (some (.functionObj ps body)), st1) =>
      if args.length ≠ ps.length then
        (.val (some (.errorObj "Number of Arguments mismatch with number of Parameters")), st1)
      else
        match evalExpressions n args env st1 with
        | (.vals vs, st2) =>
          match vs with
          | [a] =>
            if isError a then (.val a, st2)
            else
              evalBlockStatement n body st2.length
                ((ps.zip [a]).foldl (fun s pv => storageSet s st2.length pv.1 pv.2)
                  (st2 ++ [⟨[], some env⟩]))
          | _ =>
            evalBlockStatement n body st2.length
              ((ps.zip vs).foldl (fun s pv => storageSet s st2.length pv.1 pv.2)
                (st2 ++ [⟨[], some env⟩]))
        | (.panic, st2) => (.panic, st2)
        | (.timeout, st2) => (.timeout, st2)
    | (.val v, st1) =>
      (.val (some (.errorObj ("Function" ++ ident.rendering ++ " not found"))), st1)
    | other => other

end

/-- Initial store: the single root environment created at program start. -/
def store0 : Store := [⟨[], none⟩]

/-- Transcription of the `Evaluator` struct (part_001 lines 15-18): an
accumulated error list and the program to run. -/
structure Evaluator : Type where
  errors : List String
  program : List Stmt
  deriving Repr

/-- Transcription of `EvalProgram` (part_001 lines 60-62): dispatching
`eval` on the Program node runs `evalStatements` on its statements. -/
def evalProgramM (e : Evaluator) (fuel : Nat) (env : Nat) (st : Store) : Res :=
  evalStatements fuel e.program env st

/-- Transcription of `NewFromProgram` (part_001 lines 39-50): a nil AST
aborts construction, returning a nil Evaluator pointer (modelled as
`none`); the message appended to the discarded value is lost. -/
def newFromProgram : Option (List Stmt) → Option Evaluator
  | none => none
  | some p => some ⟨[], p⟩

/- Parser. The token kinds below are the ones exercised by the claims;
`IF`, `FOR`, `FUNCTION`, `VAR`, `RETURN`, `LINEBREAK` and their
statement-level parse routines are not part of the given sources
(`parser.go` ends after `parseExpression`) and no claim needs them, so
for the modelled token kinds `parseStatement` always takes its default
branch (`parseExpressionStatement`). -/

/-- Token kinds of the external lexer that the claims exercise. -/
inductive TokenType : Type where
  | NUMBER
  | IDENT
  | STRING
  | TRUE
  | FALSE
  | BANG
  | PLUS
  | MINUS
  | ASTERISC
  | SLASH
  | LT
  | GT
  | EQUALS
  | NOTEQUAL
  | LPAR
  | RPAR
  | COMMA
  | SEMICOLON
  | EOF
  deriving DecidableEq, Repr

/-- Modelled from the spec: a token is a kind plus its literal text. -/
structure Token : Type where
  type : TokenType
  literal : String
  deriving Repr

/-- Modelled from the spec: the external lexer yields EOF forever once
the input is exhausted. -/
def eofToken : Token := ⟨.EOF, ""⟩

/-- Parser state: the two-token window of the Go `Parser` struct plus
the remaining token stream (standing for the lexer) and the accumulated
error list. The handler tables of `InitParsingFns` are modelled as the
fixed dispatch inside `parseExpression` below. -/
structure Parser : Type where
  currentToken : Token
  nextToken : Token
  rest : List Token
  errors : List String
  deriving Repr

/-- Modelled from the spec: `advanceToken` shifts the two-token window
along the lexer output. -/
def advanceToken (p : Parser) : Parser :=
  ⟨p.nextToken, p.rest.headD eofToken, p.rest.tail, p.errors⟩

/-- Transcription of `NewParser` (parser.go lines 49-61): a fresh parser
over the token stream of the given input, set to its initial state by
two `advanceToken` calls. It never returns a nil pointer. -/
def newParser (toks : List Token) : Parser :=
  ⟨toks.headD eofToken, (toks.drop 1).headD eofToken, toks.drop 2, []⟩

/-- Appends a parse error, as the Go code does on its `errors` slice. -/
def addError (p : Parser) (msg : String) : Parser :=
  ⟨p.currentToken, p.nextToken, p.rest, p.errors ++ [msg]⟩

/-- Transcription of the `precedences` table (parser.go lines 25-46)
with the constants LOWEST=0 EQUALS=1 GREATLESS=2 SUM=3 PROD=4 PREFIX=5
CALL=6; a kind absent from the table has no entry (the Go map yields the
zero value LOWEST). The `tokens.FUNCTION -> CALL` entry concerns a token
kind outside the modelled set. -/
def precedences : TokenType → Option Nat
  | .EQUALS => some 1
  | .NOTEQUAL => some 1
  | .LT => some 2
  | .GT => some 2
  | .PLUS => some 3
  | .MINUS => some 3
  | .ASTERISC => some 4
  | .SLASH => some 4
  | .LPAR => some 6
  | _ => none

/-- Transcription of `nextPrecendence`: the table entry of the upcoming
token, LOWEST when absent. -/
def nextPrecedence (p : Parser) : Nat :=
  (precedences p.nextToken.type).getD 0

/-- Transcription of `curPrecedence`: the table entry of the current
token, LOWEST when absent. -/
def curPrecedence (p : Parser) : Nat :=
  (precedences p.currentToken.type).getD 0

/-- Infix registrations of `InitParsingFns` (parser.go lines 95-103)
restricted to the modelled token kinds: the binary operators share
`parseInfixExpression` and LPAR carries `parseCall`. -/
def hasInfixFn : TokenType → Bool
  | .PLUS | .MINUS | .ASTERISC | .SLASH | .LT | .GT | .EQUALS | .NOTEQUAL | .LPAR => true
  | _ => false

/-- Modelled from the spec: the identifier prefix handler. -/
def parseIdentifier (p : Parser) : Option Expr × Parser :=
  (some (.identifier p.currentToken.literal), p)

/-- Modelled from the spec: decimal digit value of a character. -/
def digitValue (c : Char) : Option Nat :=
  if 48 ≤ c.toNat ∧ c.toNat ≤ 57 then some (c.toNat - 48) else none

/-- Modelled from the spec: accumulates the decimal digits of a numeric
literal; any non-digit makes the conversion fail. -/
def digitsToNat : List Char → Option Nat → Option Nat
  | [], acc => acc
  | c :: rest, acc =>
    match digitValue c, acc with
    | some d, some a => digitsToNat rest (some (a * 10 + d))
    | _, _ => none

/-- Modelled from the spec: conversion of a numeric literal text to the
integer it denotes (the `strconv` call of the missing `parseNumber`). -/
def strToInt (s : String) : Option Int :=
  match s.toList with
  | '-' :: rest => (digitsToNat rest (some 0)).map (fun v => -(v : Int))
  | l => (digitsToNat l (some 0)).map (fun v => (v : Int))

/-- Modelled from the spec: the integer-literal prefix handler; a
literal that is not numeric records an error and yields no node. -/
def parseNumber (p : Parser) : Option Expr × Parser :=
  match strToInt p.currentToken.literal with
  | some v => (some (.integerLiteral v), p)
  | none => (none, addError p ("Could not parse " ++ p.currentToken.literal ++ " as integer"))

/-- Modelled from the spec: the string-literal prefix handler. -/
def parseString (p : Parser) : Option Expr × Parser :=
  (some (.stringLiteral p.currentToken.literal), p)

/-- Modelled from the spec: the boolean-literal prefix handler; the
lexical keyword picks the value. -/
def parseBoolExpression (p : Parser) : Option Expr × Parser :=
  (some (.booleanLit (decide (p.currentToken.type = .TRUE))), p)

mutual

/-- Transcription of `parseExpression` (parser.go lines 140-164): look
up a prefix handler for the current token kind (no handler records a
"Not prefixFn found" error and yields no expression), then run the
infix loop. The registered handler table of `InitParsingFns` (lines
83-93) is inlined as the dispatch on the token kind. -/
def parseExpression : Nat → Nat → Parser → Option Expr × Parser
  | 0, _, p => (none, p)
  | n+1, precedence, p =>
    match
      (match p.currentToken.type with
       | .IDENT => some (parseIdentifier p)
       | .NUMBER => some (parseNumber p)
       | .STRING => some (parseString p)
       | .TRUE => some (parseBoolExpression p)
       | .FALSE => some (parseBoolExpression p)
       | .BANG => some (parsePrefixExpressionFn n p)
       | .MINUS => some (parsePrefixExpressionFn n p)
       | .LPAR => some (parseGroupedExpression n p)
       | _ => none) with
    | none => (none, addError p ("Not prefixFn found for: " ++ p.currentToken.literal))
    | some res => parseExpressionLoop n precedence res.1 res.2

/-- Transcription of the infix loop of `parseExpression` (parser.go
lines 150-161): while the next token is not a statement terminator and
its declared precedence is strictly greater than the binding precedence,
an infix handler (when registered) consumes the accumulated expression. -/
def parseExpressionLoop : Nat → Nat → Option Expr → Parser → Option Expr × Parser
  | 0, _, exp, p => (exp, p)
  | n+1, precedence, exp, p =>
    if p.nextToken.type ≠ .SEMICOLON ∧ precedence < nextPrecedence p then
      if hasInfixFn p.nextToken.type then
        let p1 := advanceToken p
        let res :=
          match p1.currentToken.type with
          | .LPAR => parseCallFn n exp p1
          | _ => parseInfixExpressionFn n exp p1
        parseExpressionLoop n precedence res.1 res.2
      else (exp, p)
    else (exp, p)

/-- Modelled from the spec: `parsePrefixExpression` - record the
operator, advance, and parse the operand bound at PREFIX precedence; a
failed operand parse yields an absent node that is not embedded. -/
def parsePrefixExpressionFn : Nat → Parser → Option Expr × Parser
  | 0, p => (none, p)
  | n+1, p =>
    let op := p.currentToken.literal
    let p1 := advanceToken p
    match parseExpression n 5 p1 with
    | (r, p2) =>
      match r with
      | some rr => (some (.prefixExpr op rr), p2)
      | none => (none, p2)

/-- Modelled from the spec: `parseInfixExpression` - record the
operator, then re-enter `parseExpression` bound at the precedence of the
operator itself, which yields left associativity for equal precedences;
an absent operand is not embedded in a parent node. -/
def parseInfixExpressionFn : Nat → Option Expr → Parser → Option Expr × Parser
  | 0, _, p => (none, p)
  | n+1, left, p =>
    let op := p.currentToken.literal
    let prec := curPrecedence p
    let p1 := advanceToken p
    match parseExpression n prec p1 with
    | (r, p2) =>
      match left, r with
      | some l, some rr => (some (.infixExpr l op rr), p2)
      | _, _ => (none, p2)

/-- Modelled from the spec: `parseGroupedExpression` - parse the inner
expression at LOWEST and require the matching closing parenthesis,
recording a descriptive error and yielding an absent node otherwise. -/
def parseGroupedExpression : Nat → Parser → Option Expr × Parser
  | 0, p => (none, p)
  | n+1, p =>
    let p1 := advanceToken p
    let r := parseExpression n 0 p1
    if r.2.nextToken.type = .RPAR then (r.1, advanceToken r.2)
    else (none, addError r.2 "Expected closing parenthesis")

/-- Modelled from the spec: `parseCall` - a call is triggered by an
opening parenthesis after a callable expression and reads the
comma-separated argument list up to the matching closing token. -/
def parseCallFn : Nat → Option Expr → Parser → Option Expr × Parser
  | 0, _, p => (none, p)
  | n+1, left, p =>
    match left with
    | none => (none, p)
    | some callee =>
      if p.nextToken.type = .RPAR then (some (.functionCall callee []), advanceToken p)
      else
        let p1 := advanceToken p
        match parseCallArguments n p1 with
        | (argsRes, p2) =>
          match argsRes with
          | some args =>
            if p2.nextToken.type = .RPAR then (some (.functionCall callee args), advanceToken p2)
            else (none, addError p2 "Expected closing parenthesis")
          | none => (none, p2)

/-- Modelled from the spec: the comma-separated argument expressions of
a call. -/
def parseCallArguments : Nat → Parser → Option (List Expr) × Parser
  | 0, p => (none, p)
  | n+1, p =>
    match parseExpression n 0 p with
    | (e, p1) =>
      match e with
      | none => (none, p1)
      | some a =>
        if p1.nextToken.type = .COMMA then
          match parseCallArguments n (advanceToken (advanceToken p1)) with
          | (restRes, p2) =>
            match restRes with
            | some rest => (some (a :: rest), p2)
            | none => (none, p2)
        else (some [a], p1)

/-- Modelled from the spec: `parseExpressionStatement` - parse one
expression at LOWEST, skip a trailing statement terminator, and yield no
statement at all when the expression parse failed (an absent expression
must not be embedded in a parent node). -/
def parseExpressionStatement : Nat → Parser → Option Stmt × Parser
  | 0, p => (none, p)
  | n+1, p =>
    match parseExpression n 0 p with
    | (e, p1) =>
      match e with
      | some ex =>
        if p1.nextToken.type = .SEMICOLON then (some (.expressionStatement ex), advanceToken p1)
        else (some (.expressionStatement ex), p1)
      | none => (none, p1)

/-- Transcription of `parseStatement` (parser.go lines 123-136): the
kinds with dedicated statement parsers (VAR, RETURN, FUNCTION,
LINEBREAK) lie outside the modelled token set, so dispatch always
reaches the default expression-statement branch. -/
def parseStatement : Nat → Parser → Option Stmt × Parser
  | 0, p => (none, p)
  | n+1, p => parseExpressionStatement n p

/-- Transcription of `ParseProgram` (parser.go lines 106-121): parse
statements until EOF, skipping a statement that produced no node, and
advancing past each statement - parsing does not abort on the first
error. -/
def parseProgram : Nat → Parser → List Stmt × Parser
  | 0, p => ([], p)
  | n+1, p =>
    if p.currentToken.type = .EOF then ([], p)
    else
      let sp := parseStatement n p
      let rp := parseProgram n (advanceToken sp.2)
      match sp.1 with
      | some s => (s :: rp.1, rp.2)
      | none => (rp.1, rp.2)

end

/-- Transcription of `NewFromInput` (part_001 lines 20-37): parse the
whole input; any accumulated parse error makes construction return a nil
Evaluator pointer (modelled as `none`), discarding the Evaluator whose
error list was just filled. `NewParser` never returns nil, so the
nil-parser branch of the source is dead. -/
def newFromInput (fuel : Nat) (toks : List Token) : Option Evaluator :=
  match parseProgram fuel (newParser toks) with
  | (prog, pars) => if pars.errors = [] then some ⟨[], prog⟩ else none

/-- Parses the token stream of a source line and evaluates the resulting
program against a fresh environment, as the pipeline of the spec wires
the components together. -/
def runSource (fuel : Nat) (toks : List Token) : Outcome :=
  (evalStatements fuel (parseProgram fuel (newParser toks)).1 0 store0).1

/- Example programs used by single claims. -/

/-- Program `fn f() { x }  fn g() { var x = 42  return f() }  g()`:
the free identifier `x` of `f` is bound only in the local scope of the
caller `g`, never in the scope where `f` was declared. -/
def progC1 : List Stmt :=
  [ .functionStatement "f" [] [.expressionStatement (.identifier "x")],
    .functionStatement "g" [] [.varStatement "x" (.integerLiteral 42),
      .returnStatement (.functionCall (.identifier "f") [])],
    .expressionStatement (.functionCall (.identifier "g") []) ]

/-- Program `fn f() { x }  f()`: the free identifier `x` of `f` is bound
nowhere. -/
def progC1free : List Stmt :=
  [ .functionStatement "f" [] [.expressionStatement (.identifier "x")],
    .expressionStatement (.functionCall (.identifier "f") []) ]

/-- Call of a parameterless function whose body holds a return nested
inside an if-consequence: `fn() { if (true) { return 5 } }()`. -/
def exprC2 : Expr :=
  .functionCall
    (.anonymousFunction []
      [.expressionStatement (.ifExpr (.booleanLit true)
        [.returnStatement (.integerLiteral 5)] none)]) []

/-- Conditional whose condition is the Boolean expression
`true == true` and whose branches tell the two paths apart:
`if (true == true) { 1 } else { 2 }`. -/
def exprC4 : Expr :=
  .ifExpr (.infixExpr (.booleanLit true) "==" (.booleanLit true))
    [.expressionStatement (.integerLiteral 1)]
    (some [.expressionStatement (.integerLiteral 2)])

/-- Infix expression `foo + 1` whose left operand is an unresolved
identifier. -/
def exprC5 : Expr :=
  .infixExpr (.identifier "foo") "+" (.integerLiteral 1)

/- Theorems. -/

/-- Helper: pointer comparison with the canonical true singleton, on a
Boolean object, tests value and canonicity together. -/
theorem isTrueObj_boolean (b k : Bool) : isTrueObj (.boolean b k) = (b && k) := by
  cases b <;> cases k <;> rfl

/-- Helper: a call whose callee evaluates to a Function value of
matching arity and whose arguments evaluate without error runs the body
block in a fresh frame appended to the store, with the parameters bound
positionally in it; the parent of that frame is the environment of the
CALLER. -/
theorem evalFunctionCall_callerChild (m : Nat) (ident : Expr) (args : List Expr)
    (ps : List String) (body : List Stmt) (env : Nat) (st st1 st2 : Store)
    (vs : List (Option Obj))
    (h : evalExpr m ident env st = (.val (some (.functionObj ps body)), st1))
    (hlen : args.length = ps.length)
    (hargs : evalExpressions m args env st1 = (.vals vs, st2))
    (hok : ∀ a ∈ vs, isError a = false) :
    evalExpr (m+1+1) (.functionCall ident args) env st
      = evalBlockStatement m body st2.length
          ((ps.zip vs).foldl (fun s pv => storageSet s st2.length pv.1 pv.2)
            (st2 ++ [⟨[], some env⟩])) := by
  obtain ⟨k, rfl⟩ : ∃ k, m = k + 1 := by
    cases m with
    | zero => simp [evalExpr] at h
    | succ k => exact ⟨k, rfl⟩
  rcases vs with _ | ⟨a, _ | ⟨b, t⟩⟩
  · simp [evalExpr, evalFunctionCall, h, hlen, hargs]
  · have ha : isError a = false := hok a (by simp)
    simp [evalExpr, evalFunctionCall, h, hlen, hargs, ha]
  · simp [evalExpr, evalFunctionCall, h, hlen, hargs]

/-- C1 counterexample: the claim says a call environment is parented to
the declaration-time environment of the Function, so the free `x` of
`f` in `progC1` (declared at top level, where no `x` is ever bound)
could never resolve and the run would end in the unresolved-identifier
error that `progC1free` produces. Instead the run yields 42: the body of
`f` resolved `x` through the local scope of its caller `g`, because
`evalFunctionCall` parents the new environment to the environment of the
caller and the Function value captures nothing. -/
theorem c1_counterexample :
    (evalStatements 30 progC1 0 store0).1 = .val (some (.integer 42))
    ∧ (evalStatements 30 progC1free 0 store0).1
        = .val (some (.errorObj "Cannot resolve identifier: x")) := by
  constructor
  · simp [progC1, evalStatements, evalStmt, evalExpr, evalFunctionCall, evalExpressions,
      evalBlockStatement, storageGet, storageGetAux, storageSet, lookupBindings, isError,
      Obj.type, store0]
  · simp [progC1free, evalStatements, evalStmt, evalExpr, evalFunctionCall, evalExpressions,
      evalBlockStatement, storageGet, storageGetAux, storageSet, lookupBindings, isError,
      Obj.type, store0]

/-- C1 amended: for every function call (callee resolving to a Function
of matching arity, arguments evaluating without error) the evaluator
creates one new child environment whose parent is the environment of the
CALLER (the Function value captures no environment at declaration time),
binds the parameters positionally in it, and evaluates the body there;
free identifiers of the body therefore resolve through the dynamic call
chain, not the defining lexical scope. -/
theorem c1_amended (m : Nat) (ident : Expr) (args : List Expr)
    (ps : List String) (body : List Stmt) (env : Nat) (st st1 st2 : Store)
    (vs : List (Option Obj))
    (h : evalExpr m ident env st = (.val (some (.functionObj ps body)), st1))
    (hlen : args.length = ps.length)
    (hargs : evalExpressions m args env st1 = (.vals vs, st2))
    (hok : ∀ a ∈ vs, isError a = false) :
    evalExpr (m+1+1) (.functionCall ident args) env st
      = evalBlockStatement m body st2.length
          ((ps.zip vs).foldl (fun s pv => storageSet s st2.length pv.1 pv.2)
            (st2 ++ [⟨[], some env⟩])) :=
  evalFunctionCall_callerChild m ident args ps body env st st1 st2 vs h hlen hargs hok

/-- C1 witness: the amended equation at a concrete call of an anonymous
one-parameter function with empty body in the root environment. -/
theorem c1_amended_witness :
    evalExpr (2+1+1) (.functionCall (.anonymousFunction ["a"] []) [.integerLiteral 7]) 0 store0
      = evalBlockStatement 2 [] store0.length
          (((["a"].zip [some (Obj.integer 7)]).foldl
              (fun s pv => storageSet s store0.length pv.1 pv.2))
            (store0 ++ [⟨[], some 0⟩])) :=
  c1_amended 2 (.anonymousFunction ["a"] []) [.integerLiteral 7] ["a"] [] 0 store0 store0
    store0 [some (.integer 7)]
    (by simp [evalExpr])
    (by simp)
    (by simp [evalExpressions, evalExpr, isError])
    (by simp [isError])

/-- C2 counterexample: in `exprC2` the return nested inside the if does
unwind through the enclosing block and terminate the body, but the call
expression evaluates to the Return-signal itself, not to the carried
value 5 that the claim demands: the Return-signal escapes the function
call into the calling context (only Program-level sequencing unwraps
it). -/
theorem c2_counterexample :
    (evalExpr 30 exprC2 0 store0).1 = .val (some (.returnObj (some (.integer 5))))
    ∧ (evalExpr 30 exprC2 0 store0).1 ≠ .val (some (.integer 5)) := by
  constructor
  · simp [exprC2, evalExpr, evalFunctionCall, evalExpressions, evalBlockStatement, evalStmt,
      evalIfExpression, isTrueObj, Obj.type, selectBoolObject, isError, store0]
  · simp [exprC2, evalExpr, evalFunctionCall, evalExpressions, evalBlockStatement, evalStmt,
      evalIfExpression, isTrueObj, Obj.type, selectBoolObject, isError, store0]

/-- C2 amended: when the body evaluation of a called zero-argument
function produces a Return-signal (after unwinding through the blocks of
the body), the call expression evaluates to that same Return-signal,
unmodified and not unwrapped; unwrapping happens only in Program-level
statement sequencing. -/
theorem c2_amended (m : Nat) (ident : Expr) (body : List Stmt) (env : Nat)
    (st st1 st2 : Store) (v : Option Obj)
    (h : evalExpr m ident env st = (.val (some (.functionObj [] body)), st1))
    (hb : evalBlockStatement m body st1.length (st1 ++ [⟨[], some env⟩])
            = (.val (some (.returnObj v)), st2)) :
    evalExpr (m+1+1) (.functionCall ident []) env st
      = (.val (some (.returnObj v)), st2) := by
  have hm : ∃ k, m = k + 1 := by
    cases m with
    | zero => simp [evalExpr] at h
    | succ k => exact ⟨k, rfl⟩
  obtain ⟨k, rfl⟩ := hm
  rw [evalFunctionCall_callerChild (k+1) ident [] [] body env st st1 st1 [] h (by simp)
    (by simp [evalExpressions]) (by simp)]
  simpa using hb

/-- C2 witness: the amended equation at a concrete call whose body is a
single return statement. -/
theorem c2_amended_witness :
    evalExpr (5+1+1)
        (.functionCall (.anonymousFunction [] [.returnStatement (.integerLiteral 5)]) []) 0 store0
      = (.val (some (.returnObj (some (.integer 5)))), store0 ++ [⟨[], some 0⟩]) :=
  c2_amended 5 (.anonymousFunction [] [.returnStatement (.integerLiteral 5)])
    [.returnStatement (.integerLiteral 5)] 0 store0 store0 (store0 ++ [⟨[], some 0⟩])
    (some (.integer 5))
    (by simp [evalExpr])
    (by simp [evalBlockStatement, evalStmt, evalExpr, store0])

/-- C3: the claim says every Boolean produced by evaluation is one of
the two canonical singleton instances. The code violates it: evaluating
`true == true` builds a fresh Boolean allocation (`canonical = false`),
a third, distinct Boolean value - and the violation is observable,
because `!` picks its result by pointer comparison with the canonical
true singleton, so `!(true == true)` evaluates to Boolean true. The
source even documents the broken invariant: "we can compare object
references because we have static true and false" (part_000 line 41). -/
theorem c3_bug :
    (evalExpr 10 (.infixExpr (.booleanLit true) "==" (.booleanLit true)) 0 store0).1
        = .val (some (.boolean true false))
    ∧ (evalExpr 10 (.prefixExpr "!" (.infixExpr (.booleanLit true) "==" (.booleanLit true))) 0 store0).1
        = .val (some (.boolean true true)) := by
  constructor
  · simp [evalExpr, evalInfixDispatch, evalBooleanExpression, selectBoolObject, Obj.type, store0]
  · simp [evalExpr, evalPrefixDispatch, evalBangOperator, evalInfixDispatch,
      evalBooleanExpression, selectBoolObject, Obj.type, isTrueObj, store0]

/-- C4 counterexample: the condition of `exprC4` evaluates to a Boolean
carrying `true` (the value of `true == true`), so by the claim the
conditional must yield the consequence, Integer 1. It yields Integer 2:
the consequence runs only when the condition is pointer-equal to the
canonical true singleton, and `==` produced a fresh Boolean. -/
theorem c4_counterexample :
    (evalExpr 10 exprC4 0 store0).1 = .val (some (.integer 2))
    ∧ (evalExpr 10 exprC4 0 store0).1 ≠ .val (some (.integer 1)) := by
  constructor
  · simp [exprC4, evalExpr, evalIfExpression, evalInfixDispatch, evalBooleanExpression,
      evalBlockStatement, evalStmt, selectBoolObject, Obj.type, isTrueObj, store0]
  · simp [exprC4, evalExpr, evalIfExpression, evalInfixDispatch, evalBooleanExpression,
      evalBlockStatement, evalStmt, selectBoolObject, Obj.type, isTrueObj, store0]

/-- C4 amended: a non-Boolean condition yields an Error; a Boolean
condition runs the consequence only when it is the canonical true
singleton (value true AND canonical); every other Boolean - canonical
false or any fresh allocation, even one carrying true - runs the
alternative when present and otherwise yields the absent result (Go
nil), which is distinct from every runtime value. -/
theorem c4_amended :
    (∀ (m : Nat) (cond : Expr) (cons : List Stmt) (alt : Option (List Stmt)) (env : Nat)
       (st st1 : Store) (b k : Bool),
       evalExpr m cond env st = (.val (some (.boolean b k)), st1) →
       evalExpr (m+1+1) (.ifExpr cond cons alt) env st
         = (if b && k then evalBlockStatement m cons env st1
            else
              match alt with
              | some a => evalBlockStatement m a env st1
              | none => (.val none, st1)))
    ∧ (∀ (m : Nat) (cond : Expr) (cons : List Stmt) (alt : Option (List Stmt)) (env : Nat)
       (st st1 : Store) (c : Obj),
       evalExpr m cond env st = (.val (some c), st1) → c.type ≠ .BOOL_OBJ →
       evalExpr (m+1+1) (.ifExpr cond cons alt) env st
         = (.val (some (.errorObj
             ("Expected boolean expression for \x27if\x27 condition.\n\t" ++ c.inspect))), st1)) := by
  constructor
  · intro m cond cons alt env st st1 b k h
    simp [evalExpr, evalIfExpression, h, Obj.type, isTrueObj_boolean]
  · intro m cond cons alt env st st1 c h hc
    simp [evalExpr, evalIfExpression, h, hc]

/-- C4 witness: both parts of the amended claim at concrete inputs - a
canonical true condition running the consequence, and an Integer
condition producing the type error. -/
theorem c4_amended_witness :
    (evalExpr (1+1+1) (.ifExpr (.booleanLit true) [.expressionStatement (.integerLiteral 1)]
        (some [.expressionStatement (.integerLiteral 2)])) 0 store0
      = (if true && true then
           evalBlockStatement 1 [.expressionStatement (.integerLiteral 1)] 0 store0
         else
           match (some [.expressionStatement (.integerLiteral 2)] : Option (List Stmt)) with
           | some a => evalBlockStatement 1 a 0 store0
           | none => (.val none, store0)))
    ∧ (evalExpr (1+1+1) (.ifExpr (.integerLiteral 3) [] none) 0 store0
      = (.val (some (.errorObj
          ("Expected boolean expression for \x27if\x27 condition.\n\t" ++ (Obj.integer 3).inspect))), store0)) :=
  ⟨c4_amended.1 1 (.booleanLit true) [.expressionStatement (.integerLiteral 1)]
      (some [.expressionStatement (.integerLiteral 2)]) 0 store0 store0 true true
      (by simp [evalExpr, selectBoolObject]),
   c4_amended.2 1 (.integerLiteral 3) [] none 0 store0 store0 (.integer 3)
      (by simp [evalExpr]) (by simp [Obj.type])⟩

/-- C5 counterexample: the left operand of `exprC5` evaluates to the
Error "Cannot resolve identifier: foo", but the infix expression does
not propagate that Error unchanged as the claim demands: it yields the
fresh Error "Not supported infix operation: +" instead (the right
operand is indeed not evaluated). -/
theorem c5_counterexample :
    (evalExpr 10 exprC5 0 store0).1 = .val (some (.errorObj "Not supported infix operation: +"))
    ∧ (evalExpr 10 exprC5 0 store0).1 ≠ .val (some (.errorObj "Cannot resolve identifier: foo")) := by
  constructor
  · simp [exprC5, evalExpr, evalInfixDispatch, storageGet, storageGetAux, lookupBindings,
      Obj.type, store0]
  · simp [exprC5, evalExpr, evalInfixDispatch, storageGet, storageGetAux, lookupBindings,
      Obj.type, store0]

/-- C5 amended: when the left operand of an infix expression evaluates
to an Error value, the whole infix expression evaluates to an Error and
the right operand is not evaluated (the store stays exactly as the left
evaluation left it, whatever the right operand is) - but the Error is
the fresh "Not supported infix operation" message, not the Error of the
left operand. -/
theorem c5_amended (m : Nat) (l : Expr) (op : String) (r : Expr) (env : Nat)
    (st st1 : Store) (msg : String)
    (h : evalExpr m l env st = (.val (some (.errorObj msg)), st1)) :
    evalExpr (m+1+1) (.infixExpr l op r) env st
      = (.val (some (.errorObj ("Not supported infix operation: " ++ op))), st1) := by
  simp [evalExpr, evalInfixDispatch, h, Obj.type]

/-- C5 witness: the amended equation at the concrete left operand `foo`
(unresolved) with operator `+`. -/
theorem c5_amended_witness :
    evalExpr (1+1+1) (.infixExpr (.identifier "foo") "+" (.integerLiteral 1)) 0 store0
      = (.val (some (.errorObj "Not supported infix operation: +")), store0) :=
  c5_amended 1 (.identifier "foo") "+" (.integerLiteral 1) 0 store0 store0
    "Cannot resolve identifier: foo"
    (by simp [evalExpr, storageGet, storageGetAux, lookupBindings, store0])

/-- C6 counterexample: `return foo` with `foo` unresolved evaluates to a
Return-signal WRAPPING the Error, not to the Error itself as the claim
demands: an Error value can be embedded inside a Return-signal. -/
theorem c6_counterexample :
    (evalStmt 10 (.returnStatement (.identifier "foo")) 0 store0).1
        = .val (some (.returnObj (some (.errorObj "Cannot resolve identifier: foo"))))
    ∧ (evalStmt 10 (.returnStatement (.identifier "foo")) 0 store0).1
        ≠ .val (some (.errorObj "Cannot resolve identifier: foo")) := by
  constructor
  · simp [evalStmt, evalExpr, storageGet, storageGetAux, lookupBindings, store0]
  · simp [evalStmt, evalExpr, storageGet, storageGetAux, lookupBindings, store0]

/-- C6 amended: a return statement wraps WHATEVER its operand evaluates
to - an Error value included - in a Return-signal, with no error check
before wrapping. -/
theorem c6_amended (m : Nat) (rv : Expr) (env : Nat) (st st1 : Store) (v : Option Obj)
    (h : evalExpr m rv env st = (.val v, st1)) :
    evalStmt (m+1) (.returnStatement rv) env st = (.val (some (.returnObj v)), st1) := by
  simp [evalStmt, h]

/-- C6 witness: the amended equation at the concrete operand `foo`
(which evaluates to an Error). -/
theorem c6_amended_witness :
    evalStmt (1+1) (.returnStatement (.identifier "foo")) 0 store0
      = (.val (some (.returnObj (some (.errorObj "Cannot resolve identifier: foo")))), store0) :=
  c6_amended 1 (.identifier "foo") 0 store0 store0
    (some (.errorObj "Cannot resolve identifier: foo"))
    (by simp [evalExpr, storageGet, storageGetAux, lookupBindings, store0])

/-- C7 counterexample: evaluating `10 / 0` does not produce a runtime
value - it reaches the host-level abort (the Go runtime panic of integer
division by zero), contradicting the claim that every fallible step
yields an Error value. -/
theorem c7_counterexample :
    (evalExpr 10 (.infixExpr (.integerLiteral 10) "/" (.integerLiteral 0)) 0 store0).1
      = .panic := by
  simp [evalExpr, evalInfixDispatch, evalArithmeticOperations, Obj.type, store0]

/-- C7 amended: an integer division whose right operand evaluates to
Integer 0 invokes the abrupt host-level abort (Go runtime panic) instead
of yielding any runtime value, for every dividend, environment and
store; fallible steps other than this one (and the operations on an
absent value) yield Error values. -/
theorem c7_amended (n : Nat) (a : Int) (env : Nat) (st : Store) :
    evalExpr (n+1+1+1+1) (.infixExpr (.integerLiteral a) "/" (.integerLiteral 0)) env st
      = (.panic, st) := by
  simp [evalExpr, evalInfixDispatch, evalArithmeticOperations, Obj.type]

/-- C8: `1 + 2 * 3` parses and evaluates to Integer 7 and
`(1 + 2) * 3` to Integer 9 (the product binds tighter than the sum),
and `8 - 4 - 2` evaluates to Integer 2, not 6 (same-precedence operators
group to the left, because the infix loop continues only while the next
precedence is strictly greater than the binding precedence). -/
theorem c8_precedence_and_associativity :
    runSource 30 [⟨.NUMBER, "1"⟩, ⟨.PLUS, "+"⟩, ⟨.NUMBER, "2"⟩, ⟨.ASTERISC, "*"⟩, ⟨.NUMBER, "3"⟩]
        = .val (some (.integer 7))
    ∧ runSource 30 [⟨.LPAR, "("⟩, ⟨.NUMBER, "1"⟩, ⟨.PLUS, "+"⟩, ⟨.NUMBER, "2"⟩, ⟨.RPAR, ")"⟩,
        ⟨.ASTERISC, "*"⟩, ⟨.NUMBER, "3"⟩] = .val (some (.integer 9))
    ∧ runSource 30 [⟨.NUMBER, "8"⟩, ⟨.MINUS, "-"⟩, ⟨.NUMBER, "4"⟩, ⟨.MINUS, "-"⟩, ⟨.NUMBER, "2"⟩]
        = .val (some (.integer 2)) := by
  refine ⟨?_, ?_, ?_⟩
  · simp [runSource, newParser, parseProgram, parseStatement, parseExpressionStatement,
      parseExpression, parseExpressionLoop, parseInfixExpressionFn, parseNumber, strToInt,
      digitsToNat, digitValue, parseIdentifier, advanceToken, addError, nextPrecedence,
      curPrecedence, precedences, hasInfixFn, eofToken, evalStatements, evalStmt, evalExpr,
      evalInfixDispatch, evalArithmeticOperations, Obj.type, store0]
  · simp [runSource, newParser, parseProgram, parseStatement, parseExpressionStatement,
      parseExpression, parseExpressionLoop, parseInfixExpressionFn, parseGroupedExpression,
      parseNumber, strToInt, digitsToNat, digitValue, parseIdentifier, advanceToken, addError,
      nextPrecedence, curPrecedence, precedences, hasInfixFn, eofToken, evalStatements,
      evalStmt, evalExpr, evalInfixDispatch, evalArithmeticOperations, Obj.type, store0]
  · simp [runSource, newParser, parseProgram, parseStatement, parseExpressionStatement,
      parseExpression, parseExpressionLoop, parseInfixExpressionFn, parseNumber, strToInt,
      digitsToNat, digitValue, parseIdentifier, advanceToken, addError, nextPrecedence,
      curPrecedence, precedences, hasInfixFn, eofToken, evalStatements, evalStmt, evalExpr,
      evalInfixDispatch, evalArithmeticOperations, Obj.type, store0]

/-- C9: evaluation is a deterministic function of the AST and the
initial environment: two Evaluator values holding the same program -
whatever their accumulated error lists, the only other state the
Evaluator carries - produce identical results on fresh empty root
environments. The package-level Boolean singletons are never written, so
no process-wide mutable state enters the embedding. -/
theorem c9_deterministic (p : List Stmt) (fuel : Nat) (e1 e2 : Evaluator)
    (h1 : e1.program = p) (h2 : e2.program = p) :
    evalProgramM e1 fuel 0 store0 = evalProgramM e2 fuel 0 store0 := by
  simp [evalProgramM, h1, h2]

/-- C9 witness: two evaluators over the same one-statement program, one
carrying a stale error list, give identical results. -/
theorem c9_deterministic_witness :
    evalProgramM ⟨["stale parse error"], [.expressionStatement (.integerLiteral 1)]⟩ 5 0 store0
      = evalProgramM ⟨[], [.expressionStatement (.integerLiteral 1)]⟩ 5 0 store0 :=
  c9_deterministic [.expressionStatement (.integerLiteral 1)] 5 _ _ rfl rfl

/-- C10: both constructors return a nil Evaluator pointer on failure -
`NewFromInput` whenever parsing accumulated any error, `NewFromProgram`
whenever given a nil AST - so no caller can ever observe the error
messages appended to the discarded Evaluator through `Errors()` or
`HasErrors()`: no Evaluator value exists in the failure case. -/
theorem c10_nil_on_failed_construction :
    (∀ (fuel : Nat) (toks : List Token),
       (parseProgram fuel (newParser toks)).2.errors ≠ [] → newFromInput fuel toks = none)
    ∧ newFromProgram none = none := by
  constructor
  · intro fuel toks h
    unfold newFromInput
    rcases hp : parseProgram fuel (newParser toks) with ⟨prog, pars⟩
    rw [hp] at h
    simp only [] at h ⊢
    simp [h]
  · rfl

/-- C10 witness: the input `+` has no prefix handler, so parsing records
an error and `NewFromInput` returns nil. -/
theorem c10_nil_witness :
    (parseProgram 10 (newParser [⟨.PLUS, "+"⟩])).2.errors ≠ []
    ∧ newFromInput 10 [⟨.PLUS, "+"⟩] = none := by
  have h : (parseProgram 10 (newParser [⟨.PLUS, "+"⟩])).2.errors
      = ["Not prefixFn found for: +"] := by
    simp [parseProgram, parseStatement, parseExpressionStatement, parseExpression,
      parseExpressionLoop, newParser, advanceToken, addError, eofToken]
  exact ⟨by simp [h], c10_nil_on_failed_construction.1 10 [⟨.PLUS, "+"⟩] (by simp [h])⟩

end Interp
